import Mathlib

/-!
Shallow embedding of the membership-renewal notification logic of
`src/services/notificationService.ts` (class `NotificationService`).

Modelling conventions:
* Dates (`Date` values) are integers: milliseconds since the epoch, as
  returned by `Date.getTime()`.  The current date (`new Date()` inside the
  service) is passed explicitly as a `now` parameter.
* The two external collaborators — the durable record store
  (`firebaseService.createNotification`) and the local alert scheduler
  (`Notifications.scheduleNotificationAsync`) — are modelled by an
  environment `Env` that says which calls fail.  Each service method
  returns the list of externally visible events it performed (in order)
  together with an `Except Unit Unit` outcome: `Except.error ()` models a
  thrown exception reaching the method's caller.
* `Math.ceil(timeDiff / (1000 * 3600 * 24))` is modelled as the exact
  rational ceiling `⌈timeDiff / 86400000⌉` (the float arithmetic of the
  source is exact on integers in this range).
* `toLocaleDateString` is locale-dependent; it is modelled as an
  environment-supplied rendering function `localeDateString`.
* `member.membershipEndDate.toISOString()` stored in the payload is kept
  as the underlying integer date.
-/

namespace GymApp

/-- A gym member, as used by the renewal logic (`Member` from `src/types`):
identity, membership end date (ms since epoch), membership status string
and membership fee. -/
structure Member where
  id : String
  membershipEndDate : Int
  membershipStatus : String
  membershipFee : Int
deriving DecidableEq, Repr

/-- The free-form `data` payload of a renewal notification record. -/
structure NotificationData where
  memberId : String
  membershipEndDate : Int
  daysUntilExpiry : Int
  membershipFee : Int
deriving DecidableEq, Repr

/-- A durable notification record (`Omit<Notification, 'id'>` in the
source): user id, title, message, type tag, read flag, creation time and
payload. -/
structure NotificationRec where
  userId : String
  title : String
  message : String
  type : String
  isRead : Bool
  createdAt : Int
  data : NotificationData
deriving DecidableEq, Repr

/-- Externally visible events performed by the service, in program order. -/
inductive Event where
  /-- `firebaseService.createNotification` was called and succeeded. -/
  | recordCreated (n : NotificationRec)
  /-- `firebaseService.createNotification` was called and threw. -/
  | writeFailed (n : NotificationRec)
  /-- `Notifications.scheduleNotificationAsync` was requested (via
  `scheduleLocalNotification`). -/
  | alertRequested (title body : String)
  /-- A `console.error` / `console.log` call in a catch block. -/
  | logged (msg : String)
deriving DecidableEq, Repr

/-- The behaviour of the external collaborators: which durable writes
throw, whether alert scheduling throws, and how `toLocaleDateString`
renders a date. -/
structure Env where
  writeFails : NotificationRec → Bool
  alertFails : Bool
  localeDateString : Int → String

/-- One day in milliseconds: `1000 * 3600 * 24` from
`calculateDaysUntilExpiry`. -/
def msPerDay : Int := 1000 * 3600 * 24

/-- Exact integer form of `Math.ceil(a / b)` for a positive divisor `b`:
`-((-a) / b)` with Euclidean (floor) integer division.  That this is the
rational ceiling `⌈a / b⌉` is proved in `mathCeilDiv_eq_ceil`. -/
def mathCeilDiv (a b : Int) : Int := -((-a) / b)

/-- `calculateDaysUntilExpiry(membershipEndDate)`: the difference between
the end date and the current date, divided by one day and rounded with
`Math.ceil`. -/
def calculateDaysUntilExpiry (now membershipEndDate : Int) : Int :=
  let timeDiff : Int := membershipEndDate - now
  mathCeilDiv timeDiff msPerDay

/-- The record built by `createUrgentRenewalNotification`. -/
def urgentNotification (now : Int) (m : Member) (daysUntilExpiry : Int) :
    NotificationRec where
  userId := m.id
  title := "⚠️ Urgent: Membership Expiring Soon!"
  message := "Your membership expires in " ++ toString daysUntilExpiry ++
    " day" ++ (if daysUntilExpiry = 1 then "" else "s") ++
    ". Renew now to avoid interruption in your fitness journey!"
  type := "membership_renewal"
  isRead := false
  createdAt := now
  data :=
    { memberId := m.id
      membershipEndDate := m.membershipEndDate
      daysUntilExpiry := daysUntilExpiry
      membershipFee := m.membershipFee }

/-- The record built by `createRenewalReminderNotification`;
`f` renders `member.membershipEndDate.toLocaleDateString()`. -/
def reminderNotification (f : Int → String) (now : Int) (m : Member)
    (daysUntilExpiry : Int) : NotificationRec where
  userId := m.id
  title := "📅 Membership Renewal Reminder"
  message := "Your membership will expire on " ++ f m.membershipEndDate ++
    ". Consider renewing to continue your fitness journey!"
  type := "membership_renewal"
  isRead := false
  createdAt := now
  data :=
    { memberId := m.id
      membershipEndDate := m.membershipEndDate
      daysUntilExpiry := daysUntilExpiry
      membershipFee := m.membershipFee }

/-- The record built by `createExpiredMembershipNotification`.  Note that
its payload stores the literal `daysUntilExpiry: 0`. -/
def expiredNotification (now : Int) (m : Member) : NotificationRec where
  userId := m.id
  title := "❌ Membership Expired"
  message := "Your membership has expired. Please renew to continue accessing gym facilities and services."
  type := "membership_renewal"
  isRead := false
  createdAt := now
  data :=
    { memberId := m.id
      membershipEndDate := m.membershipEndDate
      daysUntilExpiry := 0
      membershipFee := m.membershipFee }

/-- `scheduleLocalNotification(title, body, trigger)`: requests a local
alert; on failure it logs and rethrows (`throw error`). -/
def scheduleLocalNotification (env : Env) (title body : String) :
    List Event × Except Unit Unit :=
  if env.alertFails then
    ([Event.alertRequested title body,
      Event.logged "Error scheduling local notification:"], Except.error ())
  else
    ([Event.alertRequested title body], Except.ok ())

/-- `createUrgentRenewalNotification(member, daysUntilExpiry)`: builds the
urgent record, awaits the durable write (uncaught on failure), then tries
`scheduleLocalNotification` in a try/catch that only logs. -/
def createUrgentRenewalNotification (env : Env) (now : Int) (m : Member)
    (daysUntilExpiry : Int) : List Event × Except Unit Unit :=
  let n := urgentNotification now m daysUntilExpiry
  if env.writeFails n then
    ([Event.writeFailed n], Except.error ())
  else
    match scheduleLocalNotification env n.title n.message with
    | (ev, Except.error _) =>
      (Event.recordCreated n ::
        (ev ++ [Event.logged "Local notification failed (expected in some cases):"]),
        Except.ok ())
    | (ev, Except.ok _) => (Event.recordCreated n :: ev, Except.ok ())

/-- `createRenewalReminderNotification(member, daysUntilExpiry)`: builds
the reminder record and awaits the durable write only — no local alert is
scheduled for 30-day reminders. -/
def createRenewalReminderNotification (env : Env) (now : Int) (m : Member)
    (daysUntilExpiry : Int) : List Event × Except Unit Unit :=
  let n := reminderNotification env.localeDateString now m daysUntilExpiry
  if env.writeFails n then
    ([Event.writeFailed n], Except.error ())
  else
    ([Event.recordCreated n], Except.ok ())

/-- `createExpiredMembershipNotification(member)`: builds the expired
record, awaits the durable write (uncaught on failure), then tries
`scheduleLocalNotification` in a try/catch that only logs. -/
def createExpiredMembershipNotification (env : Env) (now : Int) (m : Member) :
    List Event × Except Unit Unit :=
  let n := expiredNotification now m
  if env.writeFails n then
    ([Event.writeFailed n], Except.error ())
  else
    match scheduleLocalNotification env n.title n.message with
    | (ev, Except.error _) =>
      (Event.recordCreated n ::
        (ev ++ [Event.logged "Local notification failed (expected in some cases):"]),
        Except.ok ())
    | (ev, Except.ok _) => (Event.recordCreated n :: ev, Except.ok ())

/-- `sendMembershipRenewalNotification(member)`: computes the days until
expiry, dispatches on the thresholds `0`, `7`, `30`, and wraps the whole
body in a try/catch that logs and swallows any error. -/
def sendMembershipRenewalNotification (env : Env) (now : Int) (m : Member) :
    List Event × Except Unit Unit :=
  let daysUntilExpiry := calculateDaysUntilExpiry now m.membershipEndDate
  let attempt : List Event × Except Unit Unit :=
    if daysUntilExpiry ≤ 0 then
      createExpiredMembershipNotification env now m
    else if daysUntilExpiry ≤ 7 then
      createUrgentRenewalNotification env now m daysUntilExpiry
    else if daysUntilExpiry ≤ 30 then
      createRenewalReminderNotification env now m daysUntilExpiry
    else
      ([], Except.ok ())
  match attempt with
  | (ev, Except.error _) =>
    (ev ++ [Event.logged "Error sending membership renewal notification:"],
      Except.ok ())
  | (ev, Except.ok _) => (ev, Except.ok ())

/-- The `for (const member of members)` loop body of
`checkAllMembersForRenewal`: each active member is awaited in turn; an
uncaught exception would abort the loop and propagate. -/
def runSweepLoop (env : Env) (now : Int) : List Member → List Event × Except Unit Unit
  | [] => ([], Except.ok ())
  | m :: rest =>
    if m.membershipStatus = "active" then
      match sendMembershipRenewalNotification env now m with
      | (ev, Except.error e) => (ev, Except.error e)
      | (ev, Except.ok _) =>
        match runSweepLoop env now rest with
        | (ev2, r2) => (ev ++ ev2, r2)
    else
      runSweepLoop env now rest

/-- `checkAllMembersForRenewal()`: runs the sweep loop over the member
list returned by `firebaseService.getAllMembers()` inside a try/catch
that logs and swallows any error. -/
def checkAllMembersForRenewal (env : Env) (now : Int) (members : List Member) :
    List Event × Except Unit Unit :=
  match runSweepLoop env now members with
  | (ev, Except.error _) =>
    (ev ++ [Event.logged "Error checking members for renewal:"], Except.ok ())
  | (ev, Except.ok _) => (ev, Except.ok ())

/-! Observation helpers over event traces. -/

/-- The durable records successfully created in a trace, in order. -/
def createdRecords (tr : List Event) : List NotificationRec :=
  tr.filterMap fun e =>
    match e with
    | Event.recordCreated n => some n
    | _ => none

/-- How many alert-schedule requests a trace contains. -/
def alertRequestCount (tr : List Event) : Nat :=
  (tr.filter fun e =>
    match e with
    | Event.alertRequested _ _ => true
    | _ => false).length

/-- The tail of events produced by one best-effort alert attempt with the
given title and body: the request itself, plus the two catch-block logs
when scheduling fails. -/
def alertAttemptEvents (af : Bool) (title body : String) : List Event :=
  if af then
    [Event.alertRequested title body,
     Event.logged "Error scheduling local notification:",
     Event.logged "Local notification failed (expected in some cases):"]
  else
    [Event.alertRequested title body]

/-- An environment whose durable writes all succeed. -/
def writesOkEnv (af : Bool) (f : Int → String) : Env :=
  { writeFails := fun _ => false, alertFails := af, localeDateString := f }

/-- An environment whose durable writes all fail. -/
def writesFailEnv (af : Bool) (f : Int → String) : Env :=
  { writeFails := fun _ => true, alertFails := af, localeDateString := f }

/-- A concrete fully succeeding environment, for witnesses. -/
def env0 : Env :=
  { writeFails := fun _ => false, alertFails := false,
    localeDateString := fun _ => "" }

/-! Definitions taken from the specification's words, for refinement
claims. -/

/-- The four notification classes of the specification's renewal
classifier contract. -/
inductive RenewalClass where
  | EXPIRED
  | URGENT (daysLeft : Int)
  | REMINDER (daysLeft : Int)
  | NONE
deriving DecidableEq, Repr

/-- Modelled from the spec: the piecewise classification
`daysLeft <= 0 → EXPIRED`, `0 < daysLeft <= 7 → URGENT`,
`7 < daysLeft <= 30 → REMINDER`, `daysLeft > 30 → NONE`. -/
def specClassify (daysLeft : Int) : RenewalClass :=
  if daysLeft ≤ 0 then RenewalClass.EXPIRED
  else if daysLeft ≤ 7 then RenewalClass.URGENT daysLeft
  else if daysLeft ≤ 30 then RenewalClass.REMINDER daysLeft
  else RenewalClass.NONE

/-- The record a class should produce, built from the source's record
constructors. -/
def recordsOfClass (f : Int → String) (now : Int) (m : Member) :
    RenewalClass → List NotificationRec
  | RenewalClass.EXPIRED => [expiredNotification now m]
  | RenewalClass.URGENT d => [urgentNotification now m d]
  | RenewalClass.REMINDER d => [reminderNotification f now m d]
  | RenewalClass.NONE => []

/-! Shared lemmas. -/

/-- `mathCeilDiv` with a natural divisor is the rational ceiling. -/
theorem mathCeilDiv_eq_ceil (a : ℤ) (n : ℕ) :
    mathCeilDiv a (n : ℤ) = ⌈(a : ℚ) / (n : ℚ)⌉ := by
  unfold mathCeilDiv
  rw [show (⌈(a : ℚ) / (n : ℚ)⌉ : ℤ) = -⌊-((a : ℚ) / (n : ℚ))⌋ by
    rw [Int.floor_neg]; ring]
  rw [show (-((a : ℚ) / (n : ℚ))) = ((↑(-a) : ℚ) / (n : ℚ)) by push_cast; ring]
  rw [Rat.floor_intCast_div_natCast]

/-- With succeeding writes, the urgent creator: one record, one
best-effort alert attempt, no exception. -/
theorem createUrgent_writesOk (af : Bool) (f : Int → String) (now : Int)
    (m : Member) (d : Int) :
    createUrgentRenewalNotification (writesOkEnv af f) now m d =
      (Event.recordCreated (urgentNotification now m d) ::
        alertAttemptEvents af (urgentNotification now m d).title
          (urgentNotification now m d).message, Except.ok ()) := by
  cases af <;> rfl

/-- With succeeding writes, the expired creator: one record, one
best-effort alert attempt, no exception. -/
theorem createExpired_writesOk (af : Bool) (f : Int → String) (now : Int)
    (m : Member) :
    createExpiredMembershipNotification (writesOkEnv af f) now m =
      (Event.recordCreated (expiredNotification now m) ::
        alertAttemptEvents af (expiredNotification now m).title
          (expiredNotification now m).message, Except.ok ()) := by
  cases af <;> rfl

/-- With succeeding writes, the reminder creator: one record and nothing
else. -/
theorem createReminder_writesOk (af : Bool) (f : Int → String) (now : Int)
    (m : Member) (d : Int) :
    createRenewalReminderNotification (writesOkEnv af f) now m d =
      ([Event.recordCreated (reminderNotification f now m d)], Except.ok ()) := by
  rfl

/-- `sendMembershipRenewalNotification` never throws: its try/catch
swallows every error. -/
theorem send_ok (env : Env) (now : Int) (m : Member) :
    (sendMembershipRenewalNotification env now m).2 = Except.ok () := by
  unfold sendMembershipRenewalNotification
  dsimp only
  split <;> rfl

/-- Unfolding equation for the sweep loop on a nonempty list, using that
the per-member call never throws. -/
theorem runSweepLoop_cons (env : Env) (now : Int) (m : Member)
    (rest : List Member) :
    runSweepLoop env now (m :: rest) =
      if m.membershipStatus = "active" then
        ((sendMembershipRenewalNotification env now m).1 ++
          (runSweepLoop env now rest).1, (runSweepLoop env now rest).2)
      else
        runSweepLoop env now rest := by
  show (if m.membershipStatus = "active" then
      match sendMembershipRenewalNotification env now m with
      | (ev, Except.error e) => (ev, Except.error e)
      | (ev, Except.ok _) =>
        match runSweepLoop env now rest with
        | (ev2, r2) => (ev ++ ev2, r2)
    else runSweepLoop env now rest) = _
  by_cases h : m.membershipStatus = "active"
  · rw [if_pos h, if_pos h]
    have hs := send_ok env now m
    rcases he : sendMembershipRenewalNotification env now m with ⟨ev, r⟩
    rw [he] at hs
    cases r with
    | error e => simp at hs
    | ok u =>
      rcases hl : runSweepLoop env now rest with ⟨ev2, r2⟩
      rfl
  · rw [if_neg h, if_neg h]

/-- The sweep loop never throws, because the per-member call never
throws. -/
theorem runSweepLoop_ok (env : Env) (now : Int) (ms : List Member) :
    (runSweepLoop env now ms).2 = Except.ok () := by
  induction ms with
  | nil => rfl
  | cons m rest ih =>
    rw [runSweepLoop_cons]
    by_cases h : m.membershipStatus = "active"
    · rw [if_pos h]
      exact ih
    · rw [if_neg h]
      exact ih

/-- The sweep's trace decomposes over list append. -/
theorem runSweepLoop_append (env : Env) (now : Int) (ms1 ms2 : List Member) :
    (runSweepLoop env now (ms1 ++ ms2)).1 =
      (runSweepLoop env now ms1).1 ++ (runSweepLoop env now ms2).1 := by
  induction ms1 with
  | nil => rfl
  | cons m rest ih =>
    rw [List.cons_append, runSweepLoop_cons, runSweepLoop_cons]
    by_cases h : m.membershipStatus = "active"
    · rw [if_pos h, if_pos h]
      simp [ih, List.append_assoc]
    · rw [if_neg h, if_neg h]
      exact ih

/-- The full trace of one member's classification when all durable writes
succeed. -/
theorem send_writesOk_trace (af : Bool) (f : Int → String) (now : Int)
    (m : Member) :
    (sendMembershipRenewalNotification (writesOkEnv af f) now m).1 =
      (if calculateDaysUntilExpiry now m.membershipEndDate ≤ 0 then
        Event.recordCreated (expiredNotification now m) ::
          alertAttemptEvents af (expiredNotification now m).title
            (expiredNotification now m).message
      else if calculateDaysUntilExpiry now m.membershipEndDate ≤ 7 then
        Event.recordCreated
            (urgentNotification now m
              (calculateDaysUntilExpiry now m.membershipEndDate)) ::
          alertAttemptEvents af
            (urgentNotification now m
              (calculateDaysUntilExpiry now m.membershipEndDate)).title
            (urgentNotification now m
              (calculateDaysUntilExpiry now m.membershipEndDate)).message
      else if calculateDaysUntilExpiry now m.membershipEndDate ≤ 30 then
        [Event.recordCreated
          (reminderNotification f now m
            (calculateDaysUntilExpiry now m.membershipEndDate))]
      else []) := by
  unfold sendMembershipRenewalNotification
  dsimp only
  split_ifs with h1 h2 h3
  · rw [createExpired_writesOk]
  · rw [createUrgent_writesOk]
  · rw [createReminder_writesOk]
  · rfl

/-- The full trace of one member's classification when every durable
write fails. -/
theorem send_writesFail_trace (af : Bool) (f : Int → String) (now : Int)
    (m : Member) :
    (sendMembershipRenewalNotification (writesFailEnv af f) now m).1 =
      (if calculateDaysUntilExpiry now m.membershipEndDate ≤ 0 then
        [Event.writeFailed (expiredNotification now m),
         Event.logged "Error sending membership renewal notification:"]
      else if calculateDaysUntilExpiry now m.membershipEndDate ≤ 7 then
        [Event.writeFailed
          (urgentNotification now m
            (calculateDaysUntilExpiry now m.membershipEndDate)),
         Event.logged "Error sending membership renewal notification:"]
      else if calculateDaysUntilExpiry now m.membershipEndDate ≤ 30 then
        [Event.writeFailed
          (reminderNotification f now m
            (calculateDaysUntilExpiry now m.membershipEndDate)),
         Event.logged "Error sending membership renewal notification:"]
      else []) := by
  unfold sendMembershipRenewalNotification
  dsimp only
  split_ifs with h1 h2 h3 <;> rfl

/-- The records created by the urgent creator under an arbitrary
environment. -/
theorem createdRecords_createUrgent (env : Env) (now : Int) (m : Member)
    (d : Int) :
    createdRecords ((createUrgentRenewalNotification env now m d).1) =
      (if env.writeFails (urgentNotification now m d) then []
       else [urgentNotification now m d]) := by
  unfold createUrgentRenewalNotification scheduleLocalNotification
  dsimp only
  cases hw : env.writeFails (urgentNotification now m d) <;>
    cases ha : env.alertFails <;>
    simp [hw, ha, createdRecords]

/-- The records created by the expired creator under an arbitrary
environment. -/
theorem createdRecords_createExpired (env : Env) (now : Int) (m : Member) :
    createdRecords ((createExpiredMembershipNotification env now m).1) =
      (if env.writeFails (expiredNotification now m) then []
       else [expiredNotification now m]) := by
  unfold createExpiredMembershipNotification scheduleLocalNotification
  dsimp only
  cases hw : env.writeFails (expiredNotification now m) <;>
    cases ha : env.alertFails <;>
    simp [hw, ha, createdRecords]

/-- The records created by the reminder creator under an arbitrary
environment. -/
theorem createdRecords_createReminder (env : Env) (now : Int) (m : Member)
    (d : Int) :
    createdRecords ((createRenewalReminderNotification env now m d).1) =
      (if env.writeFails (reminderNotification env.localeDateString now m d)
       then []
       else [reminderNotification env.localeDateString now m d]) := by
  unfold createRenewalReminderNotification
  dsimp only
  cases hw : env.writeFails (reminderNotification env.localeDateString now m d) <;>
    simp [hw, createdRecords]

/-- The records created by one member's classification factor through the
branch creators, under an arbitrary environment. -/
theorem send_createdRecords (env : Env) (now : Int) (m : Member) :
    createdRecords ((sendMembershipRenewalNotification env now m).1) =
      (if calculateDaysUntilExpiry now m.membershipEndDate ≤ 0 then
        createdRecords ((createExpiredMembershipNotification env now m).1)
      else if calculateDaysUntilExpiry now m.membershipEndDate ≤ 7 then
        createdRecords
          ((createUrgentRenewalNotification env now m
            (calculateDaysUntilExpiry now m.membershipEndDate)).1)
      else if calculateDaysUntilExpiry now m.membershipEndDate ≤ 30 then
        createdRecords
          ((createRenewalReminderNotification env now m
            (calculateDaysUntilExpiry now m.membershipEndDate)).1)
      else []) := by
  unfold sendMembershipRenewalNotification
  dsimp only
  split_ifs with h1 h2 h3
  · rcases he : createExpiredMembershipNotification env now m with ⟨ev, r⟩
    cases r <;> simp [createdRecords, List.filterMap_append]
  · rcases he : createUrgentRenewalNotification env now m
      (calculateDaysUntilExpiry now m.membershipEndDate) with ⟨ev, r⟩
    cases r <;> simp [createdRecords, List.filterMap_append]
  · rcases he : createRenewalReminderNotification env now m
      (calculateDaysUntilExpiry now m.membershipEndDate) with ⟨ev, r⟩
    cases r <;> simp [createdRecords, List.filterMap_append]
  · rfl

/-- The sweep equals its loop, and never throws. -/
theorem checkAll_eq_loop (env : Env) (now : Int) (ms : List Member) :
    checkAllMembersForRenewal env now ms =
      ((runSweepLoop env now ms).1, Except.ok ()) := by
  unfold checkAllMembersForRenewal
  have h := runSweepLoop_ok env now ms
  rcases hl : runSweepLoop env now ms with ⟨ev, r⟩
  rw [hl] at h
  cases r with
  | error e => simp at h
  | ok u => rfl

/-- A concrete member whose membership ends five days after time `0`,
for witnesses. -/
def mW : Member :=
  { id := "m1", membershipEndDate := 5 * 86400000,
    membershipStatus := "active", membershipFee := 50 }

/-- A concrete member whose membership ended one day before time `0`,
for witnesses and counterexamples. -/
def mExpired : Member :=
  { id := "m2", membershipEndDate := -86400000,
    membershipStatus := "active", membershipFee := 50 }

/-! Claims. -/

/-- Claim C1: for every member, `sendMembershipRenewalNotification`
classifies by the computed days-left exactly as the piecewise mapping of
the spec — `daysLeft ≤ 0` produces the EXPIRED record, `0 < daysLeft ≤ 7`
the URGENT record, `7 < daysLeft ≤ 30` the REMINDER record, and
`daysLeft > 30` no record at all; the boundary values `0`, `7`, `30` are
instances of the universally quantified statement. -/
theorem c1_piecewise_classification (af : Bool) (f : Int → String)
    (now : Int) (m : Member) :
    createdRecords ((sendMembershipRenewalNotification (writesOkEnv af f) now m).1) =
      recordsOfClass f now m
        (specClassify (calculateDaysUntilExpiry now m.membershipEndDate)) := by
  rw [send_writesOk_trace]
  unfold specClassify
  split_ifs with h1 h2 h3 <;> cases af <;> rfl

/-- Claim C2: the days-remaining value used for classification is the
rational ceiling of (end date − current date) / one day; equivalently it
is the unique integer `q` with `day·(q−1) < diff ≤ day·q`. -/
theorem c2_daysLeft_is_ceiling (now endDate : Int) :
    calculateDaysUntilExpiry now endDate =
      ⌈((endDate : ℚ) - (now : ℚ)) / (msPerDay : ℚ)⌉
    ∧ msPerDay * (calculateDaysUntilExpiry now endDate - 1) < endDate - now
    ∧ endDate - now ≤ msPerDay * calculateDaysUntilExpiry now endDate := by
  refine ⟨?_, ?_, ?_⟩
  · show mathCeilDiv (endDate - now) msPerDay = _
    rw [show (msPerDay : ℤ) = ((86400000 : ℕ) : ℤ) by norm_num [msPerDay],
      mathCeilDiv_eq_ceil]
    congr 1
    push_cast
    norm_num [msPerDay]
  · show msPerDay * (mathCeilDiv (endDate - now) msPerDay - 1) < endDate - now
    unfold mathCeilDiv msPerDay
    omega
  · show endDate - now ≤ msPerDay * mathCeilDiv (endDate - now) msPerDay
    unfold mathCeilDiv msPerDay
    omega

/-- Claim C3: for every member with `0 < daysLeft ≤ 7`, the URGENT record
created carries the exact computed days-left value in its
`data.daysUntilExpiry` field. -/
theorem c3_urgent_exact_daysLeft (af : Bool) (f : Int → String) (now : Int)
    (m : Member)
    (h1 : 0 < calculateDaysUntilExpiry now m.membershipEndDate)
    (h2 : calculateDaysUntilExpiry now m.membershipEndDate ≤ 7) :
    createdRecords ((sendMembershipRenewalNotification (writesOkEnv af f) now m).1) =
      [urgentNotification now m (calculateDaysUntilExpiry now m.membershipEndDate)]
    ∧ (urgentNotification now m
        (calculateDaysUntilExpiry now m.membershipEndDate)).data.daysUntilExpiry =
      calculateDaysUntilExpiry now m.membershipEndDate := by
  constructor
  · rw [send_writesOk_trace, if_neg (by omega), if_pos h2]
    cases af <;> rfl
  · rfl

/-- Witness for C3: at `now = 0` the member `mW` has five days left and
gets the urgent record with `daysUntilExpiry = 5`. -/
theorem c3_urgent_exact_daysLeft_witness :
    (0 < calculateDaysUntilExpiry 0 mW.membershipEndDate
      ∧ calculateDaysUntilExpiry 0 mW.membershipEndDate ≤ 7)
    ∧ (createdRecords
        ((sendMembershipRenewalNotification (writesOkEnv false (fun _ => "")) 0 mW).1) =
        [urgentNotification 0 mW (calculateDaysUntilExpiry 0 mW.membershipEndDate)]
      ∧ (urgentNotification 0 mW
          (calculateDaysUntilExpiry 0 mW.membershipEndDate)).data.daysUntilExpiry =
        calculateDaysUntilExpiry 0 mW.membershipEndDate) :=
  ⟨⟨by decide, by decide⟩,
    c3_urgent_exact_daysLeft false (fun _ => "") 0 mW (by decide) (by decide)⟩

/-- Counterexample to C4 as stated: for the member `mExpired` at
`now = 0` the computed days-left is `-1`, but the EXPIRED record created
stores `daysUntilExpiry = 0`, not the computed value. -/
theorem c4_counterexample :
    ¬ (∀ r ∈ createdRecords ((sendMembershipRenewalNotification env0 0 mExpired).1),
        r.data.daysUntilExpiry = calculateDaysUntilExpiry 0 mExpired.membershipEndDate) := by
  decide

/-- Claim C4, amended: the stored `data.daysUntilExpiry` is a creation-time
snapshot — the exact computed days-left for URGENT and REMINDER records,
but the constant `0` for EXPIRED records (which agrees with the computed
value only when it is exactly `0`). -/
theorem c4_snapshot_amended (af : Bool) (f : Int → String) (now : Int)
    (m : Member) :
    (createdRecords
      ((sendMembershipRenewalNotification (writesOkEnv af f) now m).1)).map
        (fun r => r.data.daysUntilExpiry) =
      (if calculateDaysUntilExpiry now m.membershipEndDate ≤ 0 then [0]
       else if calculateDaysUntilExpiry now m.membershipEndDate ≤ 30 then
        [calculateDaysUntilExpiry now m.membershipEndDate]
       else []) := by
  rw [send_writesOk_trace]
  split_ifs with h1 h2 h3 <;> first | (cases af <;> rfl) | omega

/-- Claim C5: with writes succeeding, exactly one alert-schedule request
is made for the EXPIRED and URGENT classes, placed after the durable
record creation in the trace, and none for REMINDER (or NONE). -/
theorem c5_alert_for_expired_and_urgent_only (af : Bool) (f : Int → String)
    (now : Int) (m : Member) :
    (sendMembershipRenewalNotification (writesOkEnv af f) now m).1 =
      (if calculateDaysUntilExpiry now m.membershipEndDate ≤ 0 then
        Event.recordCreated (expiredNotification now m) ::
          alertAttemptEvents af (expiredNotification now m).title
            (expiredNotification now m).message
      else if calculateDaysUntilExpiry now m.membershipEndDate ≤ 7 then
        Event.recordCreated
            (urgentNotification now m
              (calculateDaysUntilExpiry now m.membershipEndDate)) ::
          alertAttemptEvents af
            (urgentNotification now m
              (calculateDaysUntilExpiry now m.membershipEndDate)).title
            (urgentNotification now m
              (calculateDaysUntilExpiry now m.membershipEndDate)).message
      else if calculateDaysUntilExpiry now m.membershipEndDate ≤ 30 then
        [Event.recordCreated
          (reminderNotification f now m
            (calculateDaysUntilExpiry now m.membershipEndDate))]
      else [])
    ∧ alertRequestCount
        ((sendMembershipRenewalNotification (writesOkEnv af f) now m).1) =
      (if calculateDaysUntilExpiry now m.membershipEndDate ≤ 7 then 1 else 0) := by
  refine ⟨send_writesOk_trace af f now m, ?_⟩
  rw [send_writesOk_trace]
  split_ifs with h1 h2 h3 <;> first | (cases af <;> rfl) | omega

/-- Claim C6: with the alert scheduler failing, the EXPIRED and URGENT
creators swallow the failure (no exception reaches their caller), the
durable record is still created, and one member's classification creates
the same records as when alerting succeeds. -/
theorem c6_alert_failure_swallowed (f : Int → String) (now : Int)
    (m : Member) (d : Int) :
    (createUrgentRenewalNotification (writesOkEnv true f) now m d).2 = Except.ok ()
    ∧ Event.recordCreated (urgentNotification now m d) ∈
        (createUrgentRenewalNotification (writesOkEnv true f) now m d).1
    ∧ (createExpiredMembershipNotification (writesOkEnv true f) now m).2 = Except.ok ()
    ∧ Event.recordCreated (expiredNotification now m) ∈
        (createExpiredMembershipNotification (writesOkEnv true f) now m).1
    ∧ (sendMembershipRenewalNotification (writesOkEnv true f) now m).2 = Except.ok ()
    ∧ createdRecords ((sendMembershipRenewalNotification (writesOkEnv true f) now m).1) =
        createdRecords ((sendMembershipRenewalNotification (writesOkEnv false f) now m).1) := by
  refine ⟨?_, ?_, ?_, ?_, send_ok _ now m, ?_⟩
  · rw [createUrgent_writesOk]
  · rw [createUrgent_writesOk]
    exact List.mem_cons_self _ _
  · rw [createExpired_writesOk]
  · rw [createExpired_writesOk]
    exact List.mem_cons_self _ _
  · rw [send_writesOk_trace, send_writesOk_trace]
    split_ifs <;> rfl

/-- Claim C7: when the durable write fails, each branch creator lets the
exception escape to `sendMembershipRenewalNotification`, which logs it
and returns normally, so the enclosing sweep is not aborted. -/
theorem c7_write_failure_propagation (af : Bool) (f : Int → String)
    (now : Int) (m : Member) (d : Int)
    (h : calculateDaysUntilExpiry now m.membershipEndDate ≤ 30) :
    (createUrgentRenewalNotification (writesFailEnv af f) now m d).2 = Except.error ()
    ∧ (createExpiredMembershipNotification (writesFailEnv af f) now m).2 = Except.error ()
    ∧ (createRenewalReminderNotification (writesFailEnv af f) now m d).2 = Except.error ()
    ∧ (sendMembershipRenewalNotification (writesFailEnv af f) now m).2 = Except.ok ()
    ∧ Event.logged "Error sending membership renewal notification:" ∈
        (sendMembershipRenewalNotification (writesFailEnv af f) now m).1 := by
  refine ⟨rfl, rfl, rfl, send_ok _ now m, ?_⟩
  rw [send_writesFail_trace]
  split_ifs <;> simp

/-- Witness for C7: the member `mW` has five days left at `now = 0`, so a
failing durable write is propagated out of the urgent creator, logged,
and swallowed by the per-member classifier. -/
theorem c7_write_failure_propagation_witness :
    calculateDaysUntilExpiry 0 mW.membershipEndDate ≤ 30
    ∧ ((createUrgentRenewalNotification (writesFailEnv false (fun _ => "")) 0 mW 3).2 = Except.error ()
      ∧ (createExpiredMembershipNotification (writesFailEnv false (fun _ => "")) 0 mW).2 = Except.error ()
      ∧ (createRenewalReminderNotification (writesFailEnv false (fun _ => "")) 0 mW 3).2 = Except.error ()
      ∧ (sendMembershipRenewalNotification (writesFailEnv false (fun _ => "")) 0 mW).2 = Except.ok ()
      ∧ Event.logged "Error sending membership renewal notification:" ∈
          (sendMembershipRenewalNotification (writesFailEnv false (fun _ => "")) 0 mW).1) :=
  ⟨by decide,
    c7_write_failure_propagation false (fun _ => "") 0 mW 3 (by decide)⟩

/-- Claim C8: the sweep's trace splits pointwise over the member list for
an arbitrary environment (in particular one whose durable writes fail),
the sweep always returns normally, and a one-member sweep performs
exactly that member's classification when active — so no member's failure
prevents any later member's attempt, and each member is attempted once. -/
theorem c8_sweep_isolated_failures (env : Env) (now : Int)
    (ms1 ms2 : List Member) (m : Member) :
    (checkAllMembersForRenewal env now (ms1 ++ ms2)).1 =
      (checkAllMembersForRenewal env now ms1).1 ++
        (checkAllMembersForRenewal env now ms2).1
    ∧ (checkAllMembersForRenewal env now (ms1 ++ ms2)).2 = Except.ok ()
    ∧ (checkAllMembersForRenewal env now [m]).1 =
      (if m.membershipStatus = "active" then
        (sendMembershipRenewalNotification env now m).1
       else []) := by
  refine ⟨?_, ?_, ?_⟩
  · rw [checkAll_eq_loop, checkAll_eq_loop, checkAll_eq_loop]
    exact runSweepLoop_append env now ms1 ms2
  · rw [checkAll_eq_loop]
  · rw [checkAll_eq_loop, runSweepLoop_cons]
    by_cases h : m.membershipStatus = "active"
    · rw [if_pos h, if_pos h]
      simp [runSweepLoop]
    · rw [if_neg h, if_neg h]
      rfl

/-- Claim C9: a sweep classifies exactly the members whose
`membershipStatus` is `"active"`, in order, each by the per-member
classification function of that member alone. -/
theorem c9_sweep_active_members_only (env : Env) (now : Int)
    (members : List Member) :
    (checkAllMembersForRenewal env now members).1 =
      ((members.filter (fun m => m.membershipStatus = "active")).map
        (fun m => (sendMembershipRenewalNotification env now m).1)).flatten := by
  rw [checkAll_eq_loop]
  show (runSweepLoop env now members).1 = _
  induction members with
  | nil => rfl
  | cons m rest ih =>
    rw [runSweepLoop_cons]
    by_cases h : m.membershipStatus = "active"
    · simp only [if_pos h]
      simp [List.filter_cons, h, ih]
    · simp only [if_neg h]
      simp [List.filter_cons, h, ih]

/-- Claim C10: every record created by one member's classification, under
any environment, has type `membership_renewal`, is unread, and carries
the member's id both as `userId` and as `data.memberId`. -/
theorem c10_record_invariants (env : Env) (now : Int) (m : Member)
    (r : NotificationRec)
    (hr : r ∈ createdRecords ((sendMembershipRenewalNotification env now m).1)) :
    r.type = "membership_renewal" ∧ r.isRead = false ∧ r.userId = m.id
    ∧ r.data.memberId = m.id := by
  rw [send_createdRecords] at hr
  split_ifs at hr
  · rw [createdRecords_createExpired] at hr
    split_ifs at hr
    · simp at hr
    · simp at hr
      subst hr
      exact ⟨rfl, rfl, rfl, rfl⟩
  · rw [createdRecords_createUrgent] at hr
    split_ifs at hr
    · simp at hr
    · simp at hr
      subst hr
      exact ⟨rfl, rfl, rfl, rfl⟩
  · rw [createdRecords_createReminder] at hr
    split_ifs at hr
    · simp at hr
    · simp at hr
      subst hr
      exact ⟨rfl, rfl, rfl, rfl⟩
  · simp at hr

/-- Witness for C10: the urgent record created for `mW` at `now = 0`
satisfies the four field invariants. -/
theorem c10_record_invariants_witness :
    (urgentNotification 0 mW 5).type = "membership_renewal"
    ∧ (urgentNotification 0 mW 5).isRead = false
    ∧ (urgentNotification 0 mW 5).userId = mW.id
    ∧ (urgentNotification 0 mW 5).data.memberId = mW.id :=
  c10_record_invariants env0 0 mW (urgentNotification 0 mW 5) (by decide)

end GymApp
